import Mathlib

/-!
# Startup-resource bootstrapper of gin-blog-server (internal/helper.go)

A shallow embedding of the three initializers `InitLogger`, `InitDatabase` and
`InitRedis`.  Calls that leave the program (filesystem, clock, database driver,
migration runner, Redis) are answered by an explicit environment, every such call
is recorded in a trace, and `log.Fatal` ends the run with exit status 1.
-/

namespace GinBlog

/-! ## Go standard library: `time` -/

/-- Civil reading of a `time.Time` in its location: what `t.Date()` and `t.Clock()`
return.  The year is a Go `int`; month, day, hour, minute and second are in the
ranges the `time` package guarantees. -/
structure Time where
  year : Int
  month : Nat
  day : Nat
  hour : Nat
  minute : Nat
  second : Nat
  month_range : 1 ≤ month ∧ month ≤ 12
  day_range : 1 ≤ day ∧ day ≤ 31
  hour_range : hour ≤ 23
  minute_range : minute ≤ 59
  second_range : second ≤ 59

/-- Go `time.appendInt`: the decimal form of `x`, preceded by `-` when `x` is negative,
padded with leading zeros when the decimal form (sign excluded) is shorter than `width`. -/
def appendInt (x : Int) (width : Nat) : List Char :=
  let u := x.natAbs
  let ds := Nat.toDigits 10 u
  (if x < 0 then ['-'] else []) ++ List.replicate (width - ds.length) '0' ++ ds

/-- Pieces of a parsed `time` layout string (the chunks `nextStdChunk` yields for the
two layouts this program uses). -/
inductive Chunk where
  | lit (s : List Char)
  | stdLongYear
  | stdZeroMonth
  | stdZeroDay
  | stdHour
  | stdZeroMinute
  | stdZeroSecond

/-- Text that `Time.Format` appends for one layout chunk. -/
def Chunk.render (t : Time) : Chunk → List Char
  | .lit s => s
  | .stdLongYear => appendInt t.year 4
  | .stdZeroMonth => appendInt t.month 2
  | .stdZeroDay => appendInt t.day 2
  | .stdHour => appendInt t.hour 2
  | .stdZeroMinute => appendInt t.minute 2
  | .stdZeroSecond => appendInt t.second 2

/-- Go `Time.Format` on a parsed layout. -/
def Time.Format (t : Time) (layout : List Chunk) : String :=
  String.mk ((layout.map (Chunk.render t)).flatten)

/-- The layout `"2006-01-02"` used for the log file name. -/
def layoutDate : List Chunk :=
  [.stdLongYear, .lit ['-'], .stdZeroMonth, .lit ['-'], .stdZeroDay]

/-- Go `time.DateTime`, the layout `"2006-01-02 15:04:05"`. -/
def time.DateTime : List Chunk :=
  [.stdLongYear, .lit ['-'], .stdZeroMonth, .lit ['-'], .stdZeroDay, .lit [' '],
   .stdHour, .lit [':'], .stdZeroMinute, .lit [':'], .stdZeroSecond]

/-! ## Go standard library: `log/slog` -/

/-- Severity `slog.LevelDebug`. -/
def slog.LevelDebug : Int := -4

/-- Severity `slog.LevelInfo`. -/
def slog.LevelInfo : Int := 0

/-- Severity `slog.LevelWarn`. -/
def slog.LevelWarn : Int := 4

/-- Severity `slog.LevelError`. -/
def slog.LevelError : Int := 8

/-- Key `slog.TimeKey` of the built-in timestamp attribute. -/
def slog.TimeKey : String := "time"

/-- A `slog.Value`, by kind.  A value of kind `Any` or `LogValuer` holds some Go value
that is not a `time.Time` (`slog.AnyValue` turns a `time.Time` into kind `Time`); it is
identified by a reference number. -/
inductive Value where
  | KindAny (ref : Nat)
  | KindBool (b : Bool)
  | KindDuration (d : Int)
  | KindFloat64 (bits : Nat)
  | KindInt64 (i : Int)
  | KindString (s : String)
  | KindTime (t : Time)
  | KindUint64 (u : Nat)
  | KindGroup (attrs : List (String × Value))
  | KindLogValuer (ref : Nat)

/-- The type assertion `v.Any().(time.Time)`: it succeeds exactly on kind `Time`. -/
def Value.asTime : Value → Option Time
  | .KindTime t => some t
  | _ => none

/-- A `slog.Attr`. -/
structure Attr where
  Key : String
  Value : Value

/-- Go `slog.HandlerOptions`. -/
structure HandlerOptions where
  AddSource : Bool
  Level : Int
  ReplaceAttr : List String → Attr → Attr

/-- Go `*os.File` as returned by `os.OpenFile`. -/
structure File where
  name : String
  fd : Nat

/-- Destination of a handler (`io.Writer`): `os.Stdout` or an opened file. -/
inductive Writer where
  | Stdout
  | file (f : File)

/-- The two handlers `slog.NewJSONHandler` and `slog.NewTextHandler` build. -/
inductive Handler where
  | JSONHandler (w : Writer) (opts : HandlerOptions)
  | TextHandler (w : Writer) (opts : HandlerOptions)

/-- Destination a handler was built with. -/
def Handler.writer : Handler → Writer
  | .JSONHandler w _ => w
  | .TextHandler w _ => w

/-- Options a handler was built with. -/
def Handler.opts : Handler → HandlerOptions
  | .JSONHandler _ o => o
  | .TextHandler _ o => o

/-- Whether the handler encodes records as JSON. -/
def Handler.isJSON : Handler → Bool
  | .JSONHandler _ _ => true
  | .TextHandler _ _ => false

/-- Go `*slog.Logger` as built by `slog.New`. -/
structure Logger where
  handler : Handler

/-- The timestamp field a handler with a rewriter emits for a record stamped `t`:
the built-in attribute `(slog.TimeKey, TimeValue t)` after `ReplaceAttr`. -/
def Handler.timeField (h : Handler) (t : Time) : Attr :=
  h.opts.ReplaceAttr [] ⟨slog.TimeKey, .KindTime t⟩

/-! ## Configuration (`gin-blog/internal/global.Config`, the fields helper.go reads) -/

/-- Section `Log` of the configuration. -/
structure LogConfig where
  Level : String
  Format : String
  Directory : String

/-- Section `Server` of the configuration (fields read here). -/
structure ServerConfig where
  DbLogMode : String
  DbAutoMigrate : Bool

/-- Section `Redis` of the configuration. -/
structure RedisConfig where
  Addr : String
  Password : String
  DB : Int

/-- The parsed configuration.  `DbType` and `DbDSN` hold what the methods
`conf.DbType()` and `conf.DbDSN()` return; their bodies are not part of helper.go. -/
structure Config where
  Log : LogConfig
  Server : ServerConfig
  Redis : RedisConfig
  DbType : String
  DbDSN : String

/-! ## Go standard library: `os` -/

/-- Open flag `os.O_WRONLY` (Linux value). -/
def os.O_WRONLY : Nat := 0x1

/-- Open flag `os.O_RDWR` (Linux value). -/
def os.O_RDWR : Nat := 0x2

/-- Open flag `os.O_CREATE` (Linux value). -/
def os.O_CREATE : Nat := 0x40

/-- Open flag `os.O_EXCL` (Linux value). -/
def os.O_EXCL : Nat := 0x80

/-- Open flag `os.O_TRUNC` (Linux value). -/
def os.O_TRUNC : Nat := 0x200

/-- Open flag `os.O_APPEND` (Linux value). -/
def os.O_APPEND : Nat := 0x400

/-! ## Collaborators: gorm, the migration runner, go-redis -/

/-- Verbosity `logger.Silent` of gorm. -/
def logger.Silent : Int := 1

/-- Verbosity `logger.Error` of gorm. -/
def logger.Error : Int := 2

/-- Verbosity `logger.Warn` of gorm. -/
def logger.Warn : Int := 3

/-- Verbosity `logger.Info` of gorm. -/
def logger.Info : Int := 4

/-- A gorm dialector: `mysql.Open dsn` or `sqlite.Open dsn`. -/
inductive Dialector where
  | mysql (dsn : String)
  | sqlite (dsn : String)

/-- Go `schema.NamingStrategy` (field set here). -/
structure NamingStrategy where
  SingularTable : Bool

/-- Go `gorm.Config` (fields set here); `Logger` is `logger.Default.LogMode level`,
kept as its level. -/
structure GormConfig where
  Logger : Int
  DisableForeignKeyConstraintWhenMigrating : Bool
  SkipDefaultTransaction : Bool
  NamingStrategy : NamingStrategy

/-- Go `*gorm.DB`, the handle `gorm.Open` returns. -/
structure DB where
  ref : Nat

/-- Go `redis.Options` (fields set here). -/
structure RedisOptions where
  Addr : String
  Password : String
  DB : Int

/-- Go `*redis.Client`: a client and the options it is bound to (`c.Options()`). -/
structure Client where
  opts : RedisOptions

/-- Go `(*redis.Options).init`, which `redis.NewClient` runs on its argument to fill in
defaults: of the fields set here only `Addr` is touched, an empty address becoming
`"localhost:6379"`; `Password` and `DB` are kept. -/
def RedisOptions.init (opt : RedisOptions) : RedisOptions :=
  if opt.Addr = "" then { opt with Addr := "localhost:6379" } else opt

/-- Go `redis.NewClient`: the client bound to the options after `init`. -/
def redis.NewClient (opt : RedisOptions) : Client :=
  ⟨opt.init⟩

/-! ## Environment, trace and runs -/

/-- Answers of everything outside the program.  An error is its message. -/
structure Env where
  MkdirAll : String → Nat → Option String
  Now : Time
  Join : String → String → String
  OpenFile : String → Nat → Nat → Except String File
  GormOpen : Dialector → GormConfig → Except String DB
  MakeMigrate : DB → Option String
  Ping : Client → Except String String

/-- One observable step of a run. -/
inductive Event where
  | MkdirAll (path : String) (perm : Nat) (err : Option String)
  | OpenFile (name : String) (flag : Nat) (perm : Nat) (err : Option String)
  | Printf (text : String)
  | SetDefault (l : Logger)
  | GormOpen (d : Dialector) (config : GormConfig) (err : Option String)
  | MakeMigrate (db : DB) (err : Option String)
  | Ping (c : Client) (err : Option String)
  | SlogInfo (msg : String) (args : List Attr)
  | LogFatal (msg : String)

/-- How a run ends: the function returns a value, or the process exits. -/
inductive Outcome (α : Type) where
  | returned (a : α)
  | exited (code : Int)

/-- A run: the events in order and the way it ends. -/
structure Run (α : Type) where
  trace : List Event
  outcome : Outcome α

/-- A run that returns at once. -/
def Run.pure {α : Type} (a : α) : Run α := ⟨[], .returned a⟩

/-- Sequencing: nothing runs after an exit. -/
def Run.bind {α β : Type} (m : Run α) (f : α → Run β) : Run β :=
  match m.outcome with
  | .returned a => ⟨m.trace ++ (f a).trace, (f a).outcome⟩
  | .exited c => ⟨m.trace, .exited c⟩

instance : Monad Run where
  pure := Run.pure
  bind := Run.bind

/-- Record one event. -/
def emit (e : Event) : Run Unit := ⟨[e], .returned ()⟩

/-- Go `log.Fatal`: print the message, then `os.Exit(1)`. -/
def log.Fatal {α : Type} (msg : String) : Run α := ⟨[.LogFatal msg], .exited 1⟩

/-- Call `os.MkdirAll`. -/
def os.MkdirAll (env : Env) (path : String) (perm : Nat) : Run (Option String) :=
  ⟨[.MkdirAll path perm (env.MkdirAll path perm)], .returned (env.MkdirAll path perm)⟩

/-- Call `os.OpenFile`. -/
def os.OpenFile (env : Env) (name : String) (flag perm : Nat) : Run (Except String File) :=
  ⟨[.OpenFile name flag perm (match env.OpenFile name flag perm with
      | .ok _ => none
      | .error e => some e)], .returned (env.OpenFile name flag perm)⟩

/-- Call `gorm.Open`. -/
def gorm.Open (env : Env) (d : Dialector) (config : GormConfig) : Run (Except String DB) :=
  ⟨[.GormOpen d config (match env.GormOpen d config with
      | .ok _ => none
      | .error e => some e)], .returned (env.GormOpen d config)⟩

/-- Call `model.MakeMigrate`. -/
def model.MakeMigrate (env : Env) (db : DB) : Run (Option String) :=
  ⟨[.MakeMigrate db (env.MakeMigrate db)], .returned (env.MakeMigrate db)⟩

/-- Call `rdb.Ping(ctx).Result()`. -/
def Client.Ping (env : Env) (c : Client) : Run (Except String String) :=
  ⟨[.Ping c (match env.Ping c with
      | .ok _ => none
      | .error e => some e)], .returned (env.Ping c)⟩

/-! ## helper.go -/

/-- The closure `ReplaceAttr` of `InitLogger` (helper.go:42-49). -/
def InitLogger.ReplaceAttr (_groups : List String) (a : Attr) : Attr :=
  if a.Key = slog.TimeKey then
    match a.Value.asTime with
    | some t => { a with Value := .KindString (t.Format time.DateTime) }
    | none => a
  else a

/-- The switch on `conf.Log.Level` in `InitLogger` (helper.go:25-37). -/
def InitLogger.level (conf : Config) : Int :=
  match conf.Log.Level with
  | "debug" => slog.LevelDebug
  | "info" => slog.LevelInfo
  | "warn" => slog.LevelWarn
  | "error" => slog.LevelError
  | _ => slog.LevelInfo

/-- The handler options `option` of `InitLogger` (helper.go:39-50). -/
def InitLogger.option (conf : Config) : HandlerOptions :=
  { AddSource := false,
    Level := InitLogger.level conf,
    ReplaceAttr := InitLogger.ReplaceAttr }

/-- The choice of `output` in `InitLogger` (helper.go:52-76). -/
def InitLogger.output (env : Env) (conf : Config) : Run Writer :=
  if conf.Log.Directory ≠ "" then do
    match ← os.MkdirAll env conf.Log.Directory 0o755 with
    | some err => do
      emit (.Printf ("创建日志目录失败: " ++ err ++ ", 将使用控制台输出\n"))
      pure Writer.Stdout
    | none => do
      let logFile := env.Join conf.Log.Directory (env.Now.Format layoutDate ++ ".log")
      match ← os.OpenFile env logFile (os.O_CREATE ||| os.O_WRONLY ||| os.O_APPEND) 0o666 with
      | .error err => do
        emit (.Printf ("创建日志文件失败: " ++ err ++ ", 将使用控制台输出\n"))
        pure Writer.Stdout
      | .ok file => pure (Writer.file file)
  else pure Writer.Stdout

/-- The switch on `conf.Log.Format` in `InitLogger` (helper.go:78-85). -/
def InitLogger.handler (conf : Config) (output : Writer) (option : HandlerOptions) : Handler :=
  match conf.Log.Format with
  | "json" => .JSONHandler output option
  | "text" => .TextHandler output option
  | _ => .TextHandler output option

/-- Go `InitLogger` (helper.go:24-90). -/
def InitLogger (env : Env) (conf : Config) : Run Logger := do
  let option := InitLogger.option conf
  let output ← InitLogger.output env conf
  let handler := InitLogger.handler conf output option
  let logger : Logger := ⟨handler⟩
  emit (.SetDefault logger)
  return logger

/-- The switch on `conf.Server.DbLogMode` in `InitDatabase` (helper.go:100-112). -/
def InitDatabase.level (conf : Config) : Int :=
  match conf.Server.DbLogMode with
  | "silent" => logger.Silent
  | "info" => logger.Info
  | "warn" => logger.Warn
  | "error" => logger.Error
  | _ => logger.Error

/-- The driver configuration `config` of `InitDatabase` (helper.go:114-121). -/
def InitDatabase.config (conf : Config) : GormConfig :=
  { Logger := InitDatabase.level conf,
    DisableForeignKeyConstraintWhenMigrating := true,
    SkipDefaultTransaction := true,
    NamingStrategy := { SingularTable := true } }

/-- The switch on `dbtype` in `InitDatabase` (helper.go:123-130); the result stands for
the pair `db, err`. -/
def InitDatabase.connect (env : Env) (dbtype dsn : String) (config : GormConfig) :
    Run (Except String DB) :=
  match dbtype with
  | "mysql" => gorm.Open env (.mysql dsn) config
  | "sqlite" => gorm.Open env (.sqlite dsn) config
  | _ => log.Fatal ("不支持的数据库类型: " ++ dbtype)

/-- Go `InitDatabase` (helper.go:93-145). -/
def InitDatabase (env : Env) (conf : Config) : Run DB := do
  let dbtype := conf.DbType
  let dsn := conf.DbDSN
  let config := InitDatabase.config conf
  let res ← InitDatabase.connect env dbtype dsn config
  match res with
  | .error err => log.Fatal ("数据库连接失败" ++ err)
  | .ok db => do
    emit (.SlogInfo "数据库连接成功" [⟨"type", .KindString dbtype⟩, ⟨"dsn", .KindString dsn⟩])
    if conf.Server.DbAutoMigrate then
      match ← model.MakeMigrate env db with
      | some err => log.Fatal ("数据库迁移失败" ++ err)
      | none => emit (.SlogInfo "数据库自动迁移成功" [])
    return db

/-- Go `InitRedis` (helper.go:148-162). -/
def InitRedis (env : Env) (conf : Config) : Run Client :=
  let rdb : Client :=
    redis.NewClient
      { Addr := conf.Redis.Addr, Password := conf.Redis.Password, DB := conf.Redis.DB }
  do
    match ← Client.Ping env rdb with
    | .error err => log.Fatal ("Redis 连接失败: " ++ err)
    | .ok _ => do
      emit (.SlogInfo "Redis 连接成功"
        [⟨"addr", .KindString conf.Redis.Addr⟩, ⟨"db", .KindInt64 conf.Redis.DB⟩,
         ⟨"password", .KindString conf.Redis.Password⟩])
      return rdb

/-! ## Observations on runs -/

/-- The value a run returns, when it returns. -/
def Run.value {α : Type} (r : Run α) : Option α :=
  match r.outcome with
  | .returned a => some a
  | .exited _ => none

/-- The event is a console diagnostic written by `fmt.Printf`. -/
def Event.isPrintf : Event → Bool
  | .Printf _ => true
  | _ => false

/-- The event is a call of `gorm.Open`. -/
def Event.isGormOpen : Event → Bool
  | .GormOpen _ _ _ => true
  | _ => false

/-- The event is a call of `model.MakeMigrate`. -/
def Event.isMakeMigrate : Event → Bool
  | .MakeMigrate _ _ => true
  | _ => false

/-- The event is a record logged through `slog.Info` with the given message. -/
def Event.isSlogInfo (msg : String) : Event → Bool
  | .SlogInfo m _ => m == msg
  | _ => false

/-- The event is a call of `os.MkdirAll` or `os.OpenFile` that returned an error. -/
def Event.isFailedFsCall : Event → Bool
  | .MkdirAll _ _ (some _) => true
  | .OpenFile _ _ _ (some _) => true
  | _ => false

/-- The number a list of decimal digit characters denotes. -/
def decimalValue (cs : List Char) : Nat :=
  cs.foldl (fun a c => 10 * a + (c.toNat - 48)) 0

/-! ## Sample inputs -/

/-- A sample clock reading: 7 March 2024, 09:05:00. -/
def sampleTime : Time :=
  ⟨2024, 3, 7, 9, 5, 0, by decide, by decide, by decide, by decide, by decide⟩

/-- A sample environment in which every outside call succeeds. -/
def sampleEnv : Env where
  MkdirAll := fun _ _ => none
  Now := sampleTime
  Join := fun dir name => dir ++ "/" ++ name
  OpenFile := fun name _ _ => .ok ⟨name, 3⟩
  GormOpen := fun _ _ => .ok ⟨1⟩
  MakeMigrate := fun _ => none
  Ping := fun _ => .ok "PONG"

/-- A sample environment in which every outside call fails. -/
def failingEnv : Env where
  MkdirAll := fun _ _ => some "permission denied"
  Now := sampleTime
  Join := fun dir name => dir ++ "/" ++ name
  OpenFile := fun _ _ _ => .error "permission denied"
  GormOpen := fun _ _ => .error "connection refused"
  MakeMigrate := fun _ => some "migration failed"
  Ping := fun _ => .error "connection refused"

/-- A sample configuration: file logging under `logs`, sqlite, auto-migration on. -/
def sampleConf : Config where
  Log := { Level := "DEBUG", Format := "json", Directory := "logs" }
  Server := { DbLogMode := "", DbAutoMigrate := true }
  Redis := { Addr := "127.0.0.1:6379", Password := "secret", DB := 2 }
  DbType := "sqlite"
  DbDSN := "blog.db"

/-- The sample configuration with an empty `Redis.Addr`. -/
def emptyAddrConf : Config :=
  { sampleConf with Redis := { sampleConf.Redis with Addr := "" } }

/-! ## Shape of the runs -/

theorem InitLogger.output_cases (env : Env) (conf : Config) :
    (conf.Log.Directory = "" ∧ InitLogger.output env conf = ⟨[], .returned .Stdout⟩) ∨
    (conf.Log.Directory ≠ "" ∧ ∃ e, env.MkdirAll conf.Log.Directory 0o755 = some e ∧
      InitLogger.output env conf =
        ⟨[.MkdirAll conf.Log.Directory 0o755 (some e),
          .Printf ("创建日志目录失败: " ++ e ++ ", 将使用控制台输出\n")], .returned .Stdout⟩) ∨
    (conf.Log.Directory ≠ "" ∧ env.MkdirAll conf.Log.Directory 0o755 = none ∧
      ∃ e, env.OpenFile (env.Join conf.Log.Directory (env.Now.Format layoutDate ++ ".log"))
          (os.O_CREATE ||| os.O_WRONLY ||| os.O_APPEND) 0o666 = .error e ∧
      InitLogger.output env conf =
        ⟨[.MkdirAll conf.Log.Directory 0o755 none,
          .OpenFile (env.Join conf.Log.Directory (env.Now.Format layoutDate ++ ".log"))
            (os.O_CREATE ||| os.O_WRONLY ||| os.O_APPEND) 0o666 (some e),
          .Printf ("创建日志文件失败: " ++ e ++ ", 将使用控制台输出\n")], .returned .Stdout⟩) ∨
    (conf.Log.Directory ≠ "" ∧ env.MkdirAll conf.Log.Directory 0o755 = none ∧
      ∃ f, env.OpenFile (env.Join conf.Log.Directory (env.Now.Format layoutDate ++ ".log"))
          (os.O_CREATE ||| os.O_WRONLY ||| os.O_APPEND) 0o666 = .ok f ∧
      InitLogger.output env conf =
        ⟨[.MkdirAll conf.Log.Directory 0o755 none,
          .OpenFile (env.Join conf.Log.Directory (env.Now.Format layoutDate ++ ".log"))
            (os.O_CREATE ||| os.O_WRONLY ||| os.O_APPEND) 0o666 none], .returned (.file f)⟩) := by
  by_cases hd : conf.Log.Directory = ""
  · left
    simp [InitLogger.output, hd, pure, Run.pure]
  · right
    cases hm : env.MkdirAll conf.Log.Directory 0o755 with
    | some e =>
      left
      refine ⟨hd, e, rfl, ?_⟩
      simp [InitLogger.output, hd, bind, Run.bind, os.MkdirAll, hm, emit, pure, Run.pure]
    | none =>
      right
      cases ho : env.OpenFile (env.Join conf.Log.Directory (env.Now.Format layoutDate ++ ".log"))
          (os.O_CREATE ||| os.O_WRONLY ||| os.O_APPEND) 0o666 with
      | error e =>
        left
        refine ⟨hd, rfl, e, rfl, ?_⟩
        simp [InitLogger.output, hd, bind, Run.bind, os.MkdirAll, os.OpenFile, hm, ho, emit,
          pure, Run.pure]
      | ok f =>
        right
        refine ⟨hd, rfl, f, rfl, ?_⟩
        simp [InitLogger.output, hd, bind, Run.bind, os.MkdirAll, os.OpenFile, hm, ho,
          pure, Run.pure]

theorem InitLogger_eq (env : Env) (conf : Config) (tr : List Event) (w : Writer)
    (h : InitLogger.output env conf = ⟨tr, .returned w⟩) :
    InitLogger env conf =
      ⟨tr ++ [.SetDefault ⟨InitLogger.handler conf w (InitLogger.option conf)⟩],
        .returned ⟨InitLogger.handler conf w (InitLogger.option conf)⟩⟩ := by
  simp [InitLogger, bind, Run.bind, h, emit, pure, Run.pure]

theorem InitLogger.level_table (conf : Config) :
    InitLogger.level conf =
      if conf.Log.Level = "debug" then slog.LevelDebug
      else if conf.Log.Level = "info" then slog.LevelInfo
      else if conf.Log.Level = "warn" then slog.LevelWarn
      else if conf.Log.Level = "error" then slog.LevelError
      else slog.LevelInfo := by
  unfold InitLogger.level
  split <;> simp_all

theorem InitLogger.handler_eq (conf : Config) (w : Writer) (o : HandlerOptions) :
    InitLogger.handler conf w o =
      if conf.Log.Format = "json" then .JSONHandler w o else .TextHandler w o := by
  unfold InitLogger.handler
  split <;> simp_all

theorem InitLogger.handler_writer (conf : Config) (w : Writer) (o : HandlerOptions) :
    (InitLogger.handler conf w o).writer = w := by
  rw [InitLogger.handler_eq]
  split <;> rfl

theorem InitLogger.handler_opts (conf : Config) (w : Writer) (o : HandlerOptions) :
    (InitLogger.handler conf w o).opts = o := by
  rw [InitLogger.handler_eq]
  split <;> rfl

theorem InitLogger.output_returns (env : Env) (conf : Config) :
    ∃ tr w, InitLogger.output env conf = ⟨tr, .returned w⟩ := by
  rcases InitLogger.output_cases env conf with
    ⟨_, h⟩ | ⟨_, _, _, h⟩ | ⟨_, _, _, _, h⟩ | ⟨_, _, _, _, h⟩ <;> exact ⟨_, _, h⟩

theorem appendInt_length (x : Int) (w : Nat) (h0 : 0 ≤ x) (hw : 0 < w) (h : x < 10 ^ w) :
    (appendInt x w).length = w := by
  have hlt : x.natAbs < 10 ^ w := by
    zify
    rw [abs_of_nonneg h0]
    exact_mod_cast h
  have hlen : (Nat.toDigits 10 x.natAbs).length ≤ w := by
    unfold Nat.toDigits
    exact Nat.toDigitsCore_length 10 (by decide) _ _ w hlt hw
  have hneg : ¬ x < 0 := not_lt.mpr h0
  simp only [appendInt, hneg, if_false, List.nil_append, List.length_append,
    List.length_replicate]
  omega

theorem digitChar_isDigit (n : Nat) (h : n < 10) : (Nat.digitChar n).isDigit = true := by
  interval_cases n <;> decide

theorem toDigitsCore_isDigit (fuel : Nat) :
    ∀ (n : Nat) (acc : List Char), (∀ c ∈ acc, c.isDigit = true) →
      ∀ c ∈ Nat.toDigitsCore 10 fuel n acc, c.isDigit = true := by
  induction fuel with
  | zero =>
    intro n acc hacc c hc
    simpa [Nat.toDigitsCore] using hacc c (by simpa [Nat.toDigitsCore] using hc)
  | succ k ih =>
    intro n acc hacc
    have hcons : ∀ c ∈ Nat.digitChar (n % 10) :: acc, c.isDigit = true := by
      intro c hc
      rcases List.mem_cons.mp hc with rfl | hc
      · exact digitChar_isDigit _ (Nat.mod_lt _ (by decide))
      · exact hacc c hc
    simp only [Nat.toDigitsCore]
    split
    · exact hcons
    · exact ih _ _ hcons

theorem appendInt_isDigit (x : Int) (w : Nat) (h0 : 0 ≤ x) :
    ∀ c ∈ appendInt x w, c.isDigit = true := by
  intro c hc
  have hneg : ¬ x < 0 := not_lt.mpr h0
  simp only [appendInt, hneg, if_false, List.nil_append, List.mem_append,
    List.mem_replicate] at hc
  rcases hc with ⟨_, rfl⟩ | hc
  · decide
  · exact toDigitsCore_isDigit _ _ [] (by simp) c hc

theorem digitChar_value (n : Nat) (h : n < 10) : (Nat.digitChar n).toNat - 48 = n := by
  interval_cases n <;> decide

theorem decimal_foldl_shift (l : List Char) :
    ∀ a : Nat, l.foldl (fun a c => 10 * a + (c.toNat - 48)) a
      = a * 10 ^ l.length + l.foldl (fun a c => 10 * a + (c.toNat - 48)) 0 := by
  induction l with
  | nil => intro a; simp
  | cons c cs ih =>
    intro a
    simp only [List.foldl_cons, List.length_cons]
    rw [ih (10 * a + (c.toNat - 48)), ih (10 * 0 + (c.toNat - 48))]
    ring

theorem decimalValue_cons (c : Char) (cs : List Char) :
    decimalValue (c :: cs) = (c.toNat - 48) * 10 ^ cs.length + decimalValue cs := by
  unfold decimalValue
  rw [List.foldl_cons, decimal_foldl_shift]
  ring_nf

theorem toDigitsCore_value (fuel : Nat) :
    ∀ (n : Nat) (acc : List Char), n < fuel →
      decimalValue (Nat.toDigitsCore 10 fuel n acc) = n * 10 ^ acc.length + decimalValue acc := by
  induction fuel with
  | zero => intro n acc h; omega
  | succ k ih =>
    intro n acc h
    simp only [Nat.toDigitsCore]
    split
    · rename_i h0
      rw [decimalValue_cons, digitChar_value _ (Nat.mod_lt _ (by decide))]
      have : n % 10 = n := by omega
      rw [this]
    · rename_i h0
      rw [ih _ _ (by omega), decimalValue_cons, digitChar_value _ (Nat.mod_lt _ (by decide))]
      simp only [List.length_cons, pow_succ]
      have hn : n = 10 * (n / 10) + n % 10 := (Nat.div_add_mod n 10).symm
      generalize n / 10 = q at *
      generalize n % 10 = r at *
      subst hn
      ring

theorem decimalValue_zeros (k : Nat) (l : List Char) :
    decimalValue (List.replicate k '0' ++ l) = decimalValue l := by
  induction k with
  | zero => simp
  | succ k ih =>
    rw [List.replicate_succ, List.cons_append, decimalValue_cons, ih]
    simp

theorem appendInt_value (x : Int) (w : Nat) (h0 : 0 ≤ x) :
    decimalValue (appendInt x w) = x.toNat := by
  have hneg : ¬ x < 0 := not_lt.mpr h0
  simp only [appendInt, hneg, if_false, List.nil_append]
  rw [decimalValue_zeros]
  unfold Nat.toDigits
  rw [toDigitsCore_value _ _ _ (Nat.lt_succ_self _)]
  simp [decimalValue]
  omega

theorem Time.month_fits (t : Time) : ((t.month : Nat) : Int) < 10 ^ 2 := by
  have := t.month_range.2
  omega

theorem Time.day_fits (t : Time) : ((t.day : Nat) : Int) < 10 ^ 2 := by
  have := t.day_range.2
  omega

theorem Time.hour_fits (t : Time) : ((t.hour : Nat) : Int) < 10 ^ 2 := by
  have := t.hour_range
  omega

theorem Time.minute_fits (t : Time) : ((t.minute : Nat) : Int) < 10 ^ 2 := by
  have := t.minute_range
  omega

theorem Time.second_fits (t : Time) : ((t.second : Nat) : Int) < 10 ^ 2 := by
  have := t.second_range
  omega

theorem Time.Format_layoutDate (t : Time) :
    t.Format layoutDate =
      String.mk (appendInt t.year 4 ++ '-' :: (appendInt t.month 2 ++ '-' :: appendInt t.day 2)) := by
  simp [Time.Format, layoutDate, Chunk.render]

theorem Time.Format_DateTime (t : Time) :
    t.Format time.DateTime =
      String.mk (appendInt t.year 4 ++ '-' :: (appendInt t.month 2 ++ '-' ::
        (appendInt t.day 2 ++ ' ' :: (appendInt t.hour 2 ++ ':' ::
          (appendInt t.minute 2 ++ ':' :: appendInt t.second 2))))) := by
  simp [Time.Format, time.DateTime, Chunk.render]

theorem InitDatabase.verbosity_table (conf : Config) :
    InitDatabase.level conf =
      if conf.Server.DbLogMode = "silent" then logger.Silent
      else if conf.Server.DbLogMode = "info" then logger.Info
      else if conf.Server.DbLogMode = "warn" then logger.Warn
      else logger.Error := by
  unfold InitDatabase.level
  split <;> simp_all

theorem InitDatabase.connect_eq (env : Env) (dbtype dsn : String) (config : GormConfig) :
    InitDatabase.connect env dbtype dsn config =
      if dbtype = "mysql" then gorm.Open env (.mysql dsn) config
      else if dbtype = "sqlite" then gorm.Open env (.sqlite dsn) config
      else log.Fatal ("不支持的数据库类型: " ++ dbtype) := by
  unfold InitDatabase.connect
  split <;> simp_all

theorem InitDatabase_unsupported (env : Env) (conf : Config)
    (h1 : conf.DbType ≠ "mysql") (h2 : conf.DbType ≠ "sqlite") :
    InitDatabase env conf =
      ⟨[.LogFatal ("不支持的数据库类型: " ++ conf.DbType)], .exited 1⟩ := by
  simp [InitDatabase, InitDatabase.connect_eq, h1, h2, bind, Run.bind, log.Fatal]

theorem InitDatabase_supported (env : Env) (conf : Config) (d : Dialector)
    (hd : (conf.DbType = "mysql" ∧ d = .mysql conf.DbDSN) ∨
      (conf.DbType = "sqlite" ∧ d = .sqlite conf.DbDSN)) :
    (∃ e, env.GormOpen d (InitDatabase.config conf) = .error e ∧
      InitDatabase env conf =
        ⟨[.GormOpen d (InitDatabase.config conf) (some e), .LogFatal ("数据库连接失败" ++ e)],
          .exited 1⟩) ∨
    (∃ db, env.GormOpen d (InitDatabase.config conf) = .ok db ∧
      conf.Server.DbAutoMigrate = false ∧
      InitDatabase env conf =
        ⟨[.GormOpen d (InitDatabase.config conf) none,
          .SlogInfo "数据库连接成功"
            [⟨"type", .KindString conf.DbType⟩, ⟨"dsn", .KindString conf.DbDSN⟩]],
          .returned db⟩) ∨
    (∃ db e, env.GormOpen d (InitDatabase.config conf) = .ok db ∧
      conf.Server.DbAutoMigrate = true ∧ env.MakeMigrate db = some e ∧
      InitDatabase env conf =
        ⟨[.GormOpen d (InitDatabase.config conf) none,
          .SlogInfo "数据库连接成功"
            [⟨"type", .KindString conf.DbType⟩, ⟨"dsn", .KindString conf.DbDSN⟩],
          .MakeMigrate db (some e), .LogFatal ("数据库迁移失败" ++ e)],
          .exited 1⟩) ∨
    (∃ db, env.GormOpen d (InitDatabase.config conf) = .ok db ∧
      conf.Server.DbAutoMigrate = true ∧ env.MakeMigrate db = none ∧
      InitDatabase env conf =
        ⟨[.GormOpen d (InitDatabase.config conf) none,
          .SlogInfo "数据库连接成功"
            [⟨"type", .KindString conf.DbType⟩, ⟨"dsn", .KindString conf.DbDSN⟩],
          .MakeMigrate db none, .SlogInfo "数据库自动迁移成功" []],
          .returned db⟩) := by
  have hc : InitDatabase.connect env conf.DbType conf.DbDSN (InitDatabase.config conf)
      = gorm.Open env d (InitDatabase.config conf) := by
    rw [InitDatabase.connect_eq]
    rcases hd with ⟨h, rfl⟩ | ⟨h, rfl⟩
    · simp [h]
    · simp [h]
  cases ho : env.GormOpen d (InitDatabase.config conf) with
  | error e =>
    left
    refine ⟨e, rfl, ?_⟩
    simp [InitDatabase, hc, gorm.Open, ho, bind, Run.bind, log.Fatal]
  | ok db =>
    right
    cases ha : conf.Server.DbAutoMigrate with
    | false =>
      left
      refine ⟨db, rfl, rfl, ?_⟩
      simp [InitDatabase, hc, gorm.Open, ho, ha, bind, Run.bind, emit, pure, Run.pure]
    | true =>
      right
      cases hmg : env.MakeMigrate db with
      | some e =>
        left
        refine ⟨db, e, rfl, rfl, hmg, ?_⟩
        simp [InitDatabase, hc, gorm.Open, ho, ha, hmg, bind, Run.bind, emit, pure, Run.pure,
          log.Fatal, model.MakeMigrate]
      | none =>
        right
        refine ⟨db, rfl, rfl, hmg, ?_⟩
        simp [InitDatabase, hc, gorm.Open, ho, ha, hmg, bind, Run.bind, emit, pure, Run.pure,
          model.MakeMigrate]

theorem InitRedis_cases (env : Env) (conf : Config) :
    (∃ e, env.Ping (redis.NewClient ⟨conf.Redis.Addr, conf.Redis.Password, conf.Redis.DB⟩)
        = .error e ∧
      InitRedis env conf =
        ⟨[.Ping (redis.NewClient ⟨conf.Redis.Addr, conf.Redis.Password, conf.Redis.DB⟩) (some e),
          .LogFatal ("Redis 连接失败: " ++ e)], .exited 1⟩) ∨
    (∃ r, env.Ping (redis.NewClient ⟨conf.Redis.Addr, conf.Redis.Password, conf.Redis.DB⟩)
        = .ok r ∧
      InitRedis env conf =
        ⟨[.Ping (redis.NewClient ⟨conf.Redis.Addr, conf.Redis.Password, conf.Redis.DB⟩) none,
          .SlogInfo "Redis 连接成功"
            [⟨"addr", .KindString conf.Redis.Addr⟩, ⟨"db", .KindInt64 conf.Redis.DB⟩,
             ⟨"password", .KindString conf.Redis.Password⟩]],
          .returned (redis.NewClient ⟨conf.Redis.Addr, conf.Redis.Password, conf.Redis.DB⟩)⟩) := by
  cases hp : env.Ping (redis.NewClient ⟨conf.Redis.Addr, conf.Redis.Password, conf.Redis.DB⟩) with
  | error e =>
    left
    refine ⟨e, rfl, ?_⟩
    simp [InitRedis, Client.Ping, hp, bind, Run.bind, log.Fatal]
  | ok r =>
    right
    refine ⟨r, rfl, ?_⟩
    simp [InitRedis, Client.Ping, hp, bind, Run.bind, emit, pure, Run.pure]

theorem redis.NewClient_opts (addr password : String) (db : Int) :
    (addr ≠ "" → (redis.NewClient ⟨addr, password, db⟩).opts.Addr = addr) ∧
    (addr = "" → (redis.NewClient ⟨addr, password, db⟩).opts.Addr = "localhost:6379") ∧
    (redis.NewClient ⟨addr, password, db⟩).opts.Password = password ∧
    (redis.NewClient ⟨addr, password, db⟩).opts.DB = db := by
  by_cases h : addr = "" <;> simp [redis.NewClient, RedisOptions.init, h]

/-! ## The claims -/

/-- C1: for every configuration and environment `InitLogger` returns a logger whose
handler options carry the minimum severity Debug when `Log.Level` is exactly `"debug"`,
Info when `"info"`, Warn when `"warn"`, Error when `"error"`, and Info for every other
string; the four severities are strictly ordered. -/
theorem InitLogger_level_mapping (env : Env) (conf : Config) :
    ∃ l : Logger, (InitLogger env conf).outcome = .returned l ∧
      (conf.Log.Level = "debug" → l.handler.opts.Level = slog.LevelDebug) ∧
      (conf.Log.Level = "info" → l.handler.opts.Level = slog.LevelInfo) ∧
      (conf.Log.Level = "warn" → l.handler.opts.Level = slog.LevelWarn) ∧
      (conf.Log.Level = "error" → l.handler.opts.Level = slog.LevelError) ∧
      (conf.Log.Level ≠ "debug" → conf.Log.Level ≠ "info" → conf.Log.Level ≠ "warn" →
        conf.Log.Level ≠ "error" → l.handler.opts.Level = slog.LevelInfo) ∧
      slog.LevelDebug < slog.LevelInfo ∧ slog.LevelInfo < slog.LevelWarn ∧
      slog.LevelWarn < slog.LevelError := by
  obtain ⟨tr, w, h⟩ := InitLogger.output_returns env conf
  refine ⟨_, by rw [InitLogger_eq env conf tr w h], ?_⟩
  simp only [InitLogger.handler_opts, InitLogger.option, InitLogger.level_table]
  refine ⟨?_, ?_, ?_, ?_, ?_, by decide, by decide, by decide⟩
  · intro h1
    simp [h1]
  · intro h1
    simp [h1]
  · intro h1
    simp [h1]
  · intro h1
    simp [h1]
  · intro h1 h2 h3 h4
    simp [h1, h2, h3, h4]

/-- Witness for C1: the differently-cased spelling `"DEBUG"` of the sample configuration
yields Info. -/
theorem InitLogger_level_mapping_witness :
    ∃ l : Logger, (InitLogger sampleEnv sampleConf).outcome = .returned l ∧
      l.handler.opts.Level = slog.LevelInfo := by
  obtain ⟨l, h, _, _, _, _, h5, _⟩ := InitLogger_level_mapping sampleEnv sampleConf
  exact ⟨l, h, h5 (by decide) (by decide) (by decide) (by decide)⟩

/-- C2: for every configuration and environment `InitLogger` returns a logger whose
handler is the JSON handler if and only if `Log.Format` is exactly `"json"`, and the
text handler for every other value; either handler is built over the destination chosen
by the output block and over the options `option`, and neither of the two changes when
only `Log.Format` is changed. -/
theorem InitLogger_format_selection (env : Env) (conf : Config) :
    ∃ (l : Logger) (tr : List Event) (w : Writer),
      (InitLogger env conf).outcome = .returned l ∧
      InitLogger.output env conf = ⟨tr, .returned w⟩ ∧
      (l.handler.isJSON = true ↔ conf.Log.Format = "json") ∧
      (conf.Log.Format = "json" → l.handler = .JSONHandler w (InitLogger.option conf)) ∧
      (conf.Log.Format ≠ "json" → l.handler = .TextHandler w (InitLogger.option conf)) ∧
      (∀ fmt : String, ∃ l2 : Logger,
        (InitLogger env { conf with Log := { conf.Log with Format := fmt } }).outcome
          = .returned l2 ∧
        l2.handler.writer = l.handler.writer ∧ l2.handler.opts = l.handler.opts) := by
  obtain ⟨tr, w, h⟩ := InitLogger.output_returns env conf
  refine ⟨_, tr, w, by rw [InitLogger_eq env conf tr w h], h, ?_, ?_, ?_, ?_⟩
  · rw [InitLogger.handler_eq]
    by_cases hf : conf.Log.Format = "json" <;> simp [hf, Handler.isJSON]
  · intro hf
    simp [InitLogger.handler_eq, hf]
  · intro hf
    simp [InitLogger.handler_eq, hf]
  · intro fmt
    have h2 : InitLogger.output env { conf with Log := { conf.Log with Format := fmt } }
        = ⟨tr, .returned w⟩ := h
    refine ⟨_, by rw [InitLogger_eq env _ tr w h2], ?_, ?_⟩
    · simp only [InitLogger.handler_writer]
    · simp only [InitLogger.handler_opts]
      rfl

/-- Witness for C2: with the empty format string the sample configuration gets the text
handler over the opened log file. -/
theorem InitLogger_format_selection_witness :
    ∃ (l : Logger) (w : Writer),
      (InitLogger sampleEnv { sampleConf with Log := { sampleConf.Log with Format := "" } }).outcome
        = .returned l ∧
      l.handler = .TextHandler w
        (InitLogger.option { sampleConf with Log := { sampleConf.Log with Format := "" } }) := by
  obtain ⟨l, _, w, h, _, _, _, h3, _⟩ := InitLogger_format_selection sampleEnv
    { sampleConf with Log := { sampleConf.Log with Format := "" } }
  exact ⟨l, w, h, h3 (by decide)⟩

/-- C3: for every configuration and every outcome of the filesystem calls `InitLogger`
returns a logger (the process does not exit); the destination is the opened file exactly
when `Log.Directory` is non-empty and both `os.MkdirAll` and `os.OpenFile` succeed, and
is `os.Stdout` otherwise; one console diagnostic is printed when the directory is
non-empty and the directory creation or the file open fails, none otherwise, which is
exactly when the trace holds a filesystem call that returned an error. -/
theorem InitLogger_destination (env : Env) (conf : Config) :
    ∃ l : Logger, (InitLogger env conf).outcome = .returned l ∧
      (∀ f : File, l.handler.writer = .file f ↔
        (conf.Log.Directory ≠ "" ∧ env.MkdirAll conf.Log.Directory 0o755 = none ∧
          env.OpenFile (env.Join conf.Log.Directory (env.Now.Format layoutDate ++ ".log"))
            (os.O_CREATE ||| os.O_WRONLY ||| os.O_APPEND) 0o666 = .ok f)) ∧
      (l.handler.writer = .Stdout ↔
        ¬ (conf.Log.Directory ≠ "" ∧ env.MkdirAll conf.Log.Directory 0o755 = none ∧
          ∃ f, env.OpenFile (env.Join conf.Log.Directory (env.Now.Format layoutDate ++ ".log"))
            (os.O_CREATE ||| os.O_WRONLY ||| os.O_APPEND) 0o666 = .ok f)) ∧
      (((InitLogger env conf).trace.filter Event.isPrintf).length = 1 ↔
        (conf.Log.Directory ≠ "" ∧
          ((∃ e, env.MkdirAll conf.Log.Directory 0o755 = some e) ∨
           (∃ e, env.OpenFile (env.Join conf.Log.Directory (env.Now.Format layoutDate ++ ".log"))
              (os.O_CREATE ||| os.O_WRONLY ||| os.O_APPEND) 0o666 = .error e)))) ∧
      (((InitLogger env conf).trace.filter Event.isPrintf).length = 0 ↔
        ¬ (conf.Log.Directory ≠ "" ∧
          ((∃ e, env.MkdirAll conf.Log.Directory 0o755 = some e) ∨
           (∃ e, env.OpenFile (env.Join conf.Log.Directory (env.Now.Format layoutDate ++ ".log"))
              (os.O_CREATE ||| os.O_WRONLY ||| os.O_APPEND) 0o666 = .error e)))) ∧
      ((InitLogger env conf).trace.any Event.isPrintf =
        (InitLogger env conf).trace.any Event.isFailedFsCall) := by
  rcases InitLogger.output_cases env conf with
    ⟨hd, h⟩ | ⟨hd, e, hm, h⟩ | ⟨hd, hm, e, ho, h⟩ | ⟨hd, hm, f, ho, h⟩
  · refine ⟨_, by rw [InitLogger_eq env conf _ _ h], ?_⟩
    simp [InitLogger_eq env conf _ _ h, InitLogger.handler_writer, hd, Event.isPrintf,
      Event.isFailedFsCall]
  · refine ⟨_, by rw [InitLogger_eq env conf _ _ h], ?_⟩
    simp [InitLogger_eq env conf _ _ h, InitLogger.handler_writer, hd, hm, Event.isPrintf,
      Event.isFailedFsCall]
  · refine ⟨_, by rw [InitLogger_eq env conf _ _ h], ?_⟩
    simp [InitLogger_eq env conf _ _ h, InitLogger.handler_writer, hd, hm, ho, Event.isPrintf,
      Event.isFailedFsCall]
  · refine ⟨_, by rw [InitLogger_eq env conf _ _ h], ?_⟩
    simp [InitLogger_eq env conf _ _ h, InitLogger.handler_writer, hd, hm, ho, Event.isPrintf,
      Event.isFailedFsCall]

/-- Witness for C3: when every filesystem call fails, the sample configuration still gets
a logger, on `os.Stdout`, after one console diagnostic. -/
theorem InitLogger_destination_witness :
    ∃ l : Logger, (InitLogger failingEnv sampleConf).outcome = .returned l ∧
      l.handler.writer = .Stdout ∧
      ((InitLogger failingEnv sampleConf).trace.filter Event.isPrintf).length = 1 := by
  obtain ⟨l, h, _, h2, h3, _⟩ := InitLogger_destination failingEnv sampleConf
  refine ⟨l, h, h2.mpr ?_, h3.mpr ⟨by decide, Or.inl ⟨_, rfl⟩⟩⟩
  rintro ⟨_, hm, _⟩
  exact absurd hm (by simp [failingEnv])

/-- C7 as stated fails: on the sample run the log file is opened with mode 0666, which is
not 0644 and has the write bits of group and others set. -/
theorem InitLogger_open_mode_counterexample :
    Event.OpenFile "logs/2024-03-07.log" (os.O_CREATE ||| os.O_WRONLY ||| os.O_APPEND) 0o666 none
        ∈ (InitLogger sampleEnv sampleConf).trace ∧
      (0o666 : Nat) ≠ 0o644 ∧ (0o666 : Nat) &&& 0o022 = 0o022 := by
  refine ⟨List.mem_cons_of_mem _ (List.mem_cons_self _ _), by decide, by decide⟩

/-- C7, amended: every `os.MkdirAll` call of `InitLogger` is on `Log.Directory` with mode
0755 (owner read/write/execute, group and others read/execute), and every `os.OpenFile`
call asks for create, append and write-only access (no read, truncate or exclusive flag)
with mode 0666 (read and write for owner, group and others, before the umask); the
directory is created whenever `Log.Directory` is non-empty and the file is opened whenever
that creation succeeds. -/
theorem InitLogger_fs_modes (env : Env) (conf : Config) :
    (∀ path perm err, Event.MkdirAll path perm err ∈ (InitLogger env conf).trace →
      path = conf.Log.Directory ∧ perm = 0o755) ∧
    (∀ name flag perm err, Event.OpenFile name flag perm err ∈ (InitLogger env conf).trace →
      flag = os.O_CREATE ||| os.O_WRONLY ||| os.O_APPEND ∧ perm = 0o666) ∧
    (conf.Log.Directory ≠ "" →
      ∃ err, Event.MkdirAll conf.Log.Directory 0o755 err ∈ (InitLogger env conf).trace) ∧
    (conf.Log.Directory ≠ "" → env.MkdirAll conf.Log.Directory 0o755 = none →
      ∃ name err, Event.OpenFile name (os.O_CREATE ||| os.O_WRONLY ||| os.O_APPEND) 0o666 err
        ∈ (InitLogger env conf).trace) ∧
    (0o755 : Nat) = 7 * 64 + 5 * 8 + 5 ∧ (0o666 : Nat) = 6 * 64 + 6 * 8 + 6 ∧
    (os.O_CREATE ||| os.O_WRONLY ||| os.O_APPEND) &&& os.O_CREATE = os.O_CREATE ∧
    (os.O_CREATE ||| os.O_WRONLY ||| os.O_APPEND) &&& os.O_APPEND = os.O_APPEND ∧
    (os.O_CREATE ||| os.O_WRONLY ||| os.O_APPEND) &&& (os.O_WRONLY ||| os.O_RDWR) = os.O_WRONLY ∧
    (os.O_CREATE ||| os.O_WRONLY ||| os.O_APPEND) &&& (os.O_TRUNC ||| os.O_EXCL) = 0 := by
  refine ⟨?_, ?_, ?_, ?_, by decide, by decide, by decide, by decide, by decide, by decide⟩
  · intro path perm err
    rcases InitLogger.output_cases env conf with
      ⟨hd, h⟩ | ⟨hd, e, hm, h⟩ | ⟨hd, hm, e, ho, h⟩ | ⟨hd, hm, f, ho, h⟩ <;>
    · rw [InitLogger_eq env conf _ _ h]
      simp
      try (intro h1 h2 _; exact ⟨h1, h2⟩)
  · intro name flag perm err
    rcases InitLogger.output_cases env conf with
      ⟨hd, h⟩ | ⟨hd, e, hm, h⟩ | ⟨hd, hm, e, ho, h⟩ | ⟨hd, hm, f, ho, h⟩ <;>
    · rw [InitLogger_eq env conf _ _ h]
      simp
      try (intro _ h2 h3 _; exact ⟨h2, h3⟩)
  · intro hd0
    rcases InitLogger.output_cases env conf with
      ⟨hd, h⟩ | ⟨hd, e, hm, h⟩ | ⟨hd, hm, e, ho, h⟩ | ⟨hd, hm, f, ho, h⟩
    · exact absurd hd hd0
    · exact ⟨some e, by rw [InitLogger_eq env conf _ _ h]; simp⟩
    · exact ⟨none, by rw [InitLogger_eq env conf _ _ h]; simp⟩
    · exact ⟨none, by rw [InitLogger_eq env conf _ _ h]; simp⟩
  · intro hd0 hm0
    rcases InitLogger.output_cases env conf with
      ⟨hd, h⟩ | ⟨hd, e, hm, h⟩ | ⟨hd, hm, e, ho, h⟩ | ⟨hd, hm, f, ho, h⟩
    · exact absurd hd hd0
    · rw [hm0] at hm
      cases hm
    · exact ⟨env.Join conf.Log.Directory (env.Now.Format layoutDate ++ ".log"), some e,
        by rw [InitLogger_eq env conf _ _ h]; simp⟩
    · exact ⟨env.Join conf.Log.Directory (env.Now.Format layoutDate ++ ".log"), none,
        by rw [InitLogger_eq env conf _ _ h]; simp⟩

/-- Witness for C7, amended: the sample run creates `logs` with mode 0755 and opens a file
with create, write-only, append and mode 0666. -/
theorem InitLogger_fs_modes_witness :
    (∃ err, Event.MkdirAll "logs" 0o755 err ∈ (InitLogger sampleEnv sampleConf).trace) ∧
    (∃ name err, Event.OpenFile name (os.O_CREATE ||| os.O_WRONLY ||| os.O_APPEND) 0o666 err
        ∈ (InitLogger sampleEnv sampleConf).trace) := by
  obtain ⟨_, _, h3, h4, _⟩ := InitLogger_fs_modes sampleEnv sampleConf
  exact ⟨h3 (by decide), h4 (by decide) rfl⟩

/-- C8: for every non-empty `Log.Directory` whose creation succeeds and every current
time the clock can read (assumed: a year in 0..9999, which contains every reading of a
system wall clock), `InitLogger` opens exactly one path, the join of `Log.Directory` with
the file name made of the year on four digits, the month on two and the day on two
(decimal digits that read back as year, month and day), separated by hyphens and followed
by `.log`; that name is 14 characters long, and the whole run is the same for any other
current time with the same date. -/
theorem InitLogger_log_file_name (env : Env) (conf : Config)
    (hd : conf.Log.Directory ≠ "")
    (hm : env.MkdirAll conf.Log.Directory 0o755 = none)
    (hy : 0 ≤ env.Now.year ∧ env.Now.year ≤ 9999) :
    (∃ err, Event.OpenFile (env.Join conf.Log.Directory (env.Now.Format layoutDate ++ ".log"))
        (os.O_CREATE ||| os.O_WRONLY ||| os.O_APPEND) 0o666 err ∈ (InitLogger env conf).trace) ∧
    (∀ name flag perm err, Event.OpenFile name flag perm err ∈ (InitLogger env conf).trace →
      name = env.Join conf.Log.Directory (env.Now.Format layoutDate ++ ".log")) ∧
    env.Now.Format layoutDate ++ ".log" =
      String.mk (appendInt env.Now.year 4 ++ '-' ::
        (appendInt env.Now.month 2 ++ '-' :: appendInt env.Now.day 2)) ++ ".log" ∧
    (appendInt env.Now.year 4).length = 4 ∧
    (appendInt env.Now.month 2).length = 2 ∧
    (appendInt env.Now.day 2).length = 2 ∧
    (∀ c ∈ appendInt env.Now.year 4 ++ appendInt env.Now.month 2 ++ appendInt env.Now.day 2,
      c.isDigit = true) ∧
    (decimalValue (appendInt env.Now.year 4) : Int) = env.Now.year ∧
    decimalValue (appendInt env.Now.month 2) = env.Now.month ∧
    decimalValue (appendInt env.Now.day 2) = env.Now.day ∧
    (env.Now.Format layoutDate ++ ".log").length = 14 ∧
    (∀ t2 : Time, t2.year = env.Now.year → t2.month = env.Now.month → t2.day = env.Now.day →
      InitLogger { env with Now := t2 } conf = InitLogger env conf) := by
  have hY : (appendInt env.Now.year 4).length = 4 :=
    appendInt_length _ 4 hy.1 (by decide) (by have := hy.2; omega)
  have hM : (appendInt env.Now.month 2).length = 2 :=
    appendInt_length _ 2 (Int.natCast_nonneg _) (by decide) env.Now.month_fits
  have hD : (appendInt env.Now.day 2).length = 2 :=
    appendInt_length _ 2 (Int.natCast_nonneg _) (by decide) env.Now.day_fits
  refine ⟨?_, ?_, by rw [Time.Format_layoutDate], hY, hM, hD, ?_, ?_, ?_, ?_, ?_, ?_⟩
  · rcases InitLogger.output_cases env conf with
      ⟨hd1, h⟩ | ⟨hd1, e, hm1, h⟩ | ⟨hd1, hm1, e, ho, h⟩ | ⟨hd1, hm1, f, ho, h⟩
    · exact absurd hd1 hd
    · rw [hm] at hm1
      cases hm1
    · exact ⟨some e, by rw [InitLogger_eq env conf _ _ h]; simp⟩
    · exact ⟨none, by rw [InitLogger_eq env conf _ _ h]; simp⟩
  · intro name flag perm err
    rcases InitLogger.output_cases env conf with
      ⟨hd1, h⟩ | ⟨hd1, e, hm1, h⟩ | ⟨hd1, hm1, e, ho, h⟩ | ⟨hd1, hm1, f, ho, h⟩ <;>
    · rw [InitLogger_eq env conf _ _ h]
      simp
      try (intro h1 _ _ _; exact h1)
  · intro c hc
    rcases List.mem_append.mp hc with hc | hc
    · rcases List.mem_append.mp hc with hc | hc
      · exact appendInt_isDigit _ _ hy.1 c hc
      · exact appendInt_isDigit _ _ (Int.natCast_nonneg _) c hc
    · exact appendInt_isDigit _ _ (Int.natCast_nonneg _) c hc
  · rw [appendInt_value _ _ hy.1]
    exact Int.toNat_of_nonneg hy.1
  · rw [appendInt_value _ _ (Int.natCast_nonneg _)]
    exact Int.toNat_ofNat _
  · rw [appendInt_value _ _ (Int.natCast_nonneg _)]
    exact Int.toNat_ofNat _
  · rw [Time.Format_layoutDate]
    simp only [String.length_append, String.length_mk, List.length_append, List.length_cons,
      hY, hM, hD]
    rfl
  · intro t2 h1 h2 h3
    have hfmt : t2.Format layoutDate = env.Now.Format layoutDate := by
      rw [Time.Format_layoutDate, Time.Format_layoutDate, h1, h2, h3]
    simp only [InitLogger, InitLogger.output, os.MkdirAll, os.OpenFile, hfmt]

/-- Witness for C8: on 7 March 2024 the sample run opens `logs/2024-03-07.log`. -/
theorem InitLogger_log_file_name_witness :
    (∃ err, Event.OpenFile
        (sampleEnv.Join sampleConf.Log.Directory (sampleEnv.Now.Format layoutDate ++ ".log"))
        (os.O_CREATE ||| os.O_WRONLY ||| os.O_APPEND) 0o666 err
        ∈ (InitLogger sampleEnv sampleConf).trace) ∧
    sampleEnv.Join sampleConf.Log.Directory (sampleEnv.Now.Format layoutDate ++ ".log")
      = "logs/2024-03-07.log" ∧
    (sampleEnv.Now.Format layoutDate ++ ".log").length = 14 := by
  obtain ⟨h1, _, _, _, _, _, _, _, _, _, h8, _⟩ :=
    InitLogger_log_file_name sampleEnv sampleConf (by decide) rfl (by decide)
  exact ⟨h1, by decide, h8⟩

/-- C4: when `conf.DbType()` is neither `"mysql"` nor `"sqlite"`, `InitDatabase` exits
with status 1 through `log.Fatal` and returns no handle; its only event is the fatal log
line, so no driver is opened, the connection-success line is not logged and the migration
runner is not called. -/
theorem InitDatabase_unsupported_backend (env : Env) (conf : Config)
    (h1 : conf.DbType ≠ "mysql") (h2 : conf.DbType ≠ "sqlite") :
    (InitDatabase env conf).outcome = .exited 1 ∧
    (InitDatabase env conf).value = none ∧
    (InitDatabase env conf).trace = [.LogFatal ("不支持的数据库类型: " ++ conf.DbType)] ∧
    (∀ e ∈ (InitDatabase env conf).trace,
      e.isGormOpen = false ∧ e.isSlogInfo "数据库连接成功" = false ∧
      e.isMakeMigrate = false) := by
  rw [InitDatabase_unsupported env conf h1 h2]
  simp [Run.value, Event.isGormOpen, Event.isSlogInfo, Event.isMakeMigrate]

/-- Witness for C4: the backend kind `"postgres"` ends the run with status 1 although
every outside call would succeed. -/
theorem InitDatabase_unsupported_backend_witness :
    (InitDatabase sampleEnv { sampleConf with DbType := "postgres" }).outcome = .exited 1 ∧
    (InitDatabase sampleEnv { sampleConf with DbType := "postgres" }).trace
      = [.LogFatal "不支持的数据库类型: postgres"] :=
  have h := InitDatabase_unsupported_backend sampleEnv { sampleConf with DbType := "postgres" }
    (by decide) (by decide)
  ⟨h.1, h.2.2.1⟩

/-- C6 as stated fails: with an empty `Redis.Addr` and a ping that succeeds, the client
`InitRedis` returns is bound to `localhost:6379`, not to the configured (empty) address. -/
theorem InitRedis_addr_counterexample :
    emptyAddrConf.Redis.Addr = "" ∧
    (InitRedis sampleEnv emptyAddrConf).outcome
      = .returned ⟨⟨"localhost:6379", "secret", 2⟩⟩ ∧
    (⟨⟨"localhost:6379", "secret", 2⟩⟩ : Client).opts.Addr ≠ emptyAddrConf.Redis.Addr := by
  refine ⟨rfl, rfl, by decide⟩

/-- C6, amended: `InitRedis` returns a client if and only if the ping succeeds; a returned
client is the one that was pinged and is bound to the configured `Redis.Password` and
`Redis.DB`, and to the configured `Redis.Addr` when that is non-empty (to
`localhost:6379` when it is empty); when the ping fails the run exits with status 1
through `log.Fatal`, returns nothing and does not log the connection-success line. -/
theorem InitRedis_liveness (env : Env) (conf : Config) :
    ((∃ c, (InitRedis env conf).outcome = .returned c) ↔
      ∃ r, env.Ping (redis.NewClient ⟨conf.Redis.Addr, conf.Redis.Password, conf.Redis.DB⟩)
        = .ok r) ∧
    (∀ c, (InitRedis env conf).outcome = .returned c →
      (conf.Redis.Addr ≠ "" → c.opts.Addr = conf.Redis.Addr) ∧
      (conf.Redis.Addr = "" → c.opts.Addr = "localhost:6379") ∧
      c.opts.Password = conf.Redis.Password ∧
      c.opts.DB = conf.Redis.DB ∧
      ∃ err, (InitRedis env conf).trace.head? = some (.Ping c err)) ∧
    (∀ e, env.Ping (redis.NewClient ⟨conf.Redis.Addr, conf.Redis.Password, conf.Redis.DB⟩)
        = .error e →
      (InitRedis env conf).outcome = .exited 1 ∧
      (InitRedis env conf).value = none ∧
      (InitRedis env conf).trace =
        [.Ping (redis.NewClient ⟨conf.Redis.Addr, conf.Redis.Password, conf.Redis.DB⟩) (some e),
         .LogFatal ("Redis 连接失败: " ++ e)] ∧
      ∀ ev ∈ (InitRedis env conf).trace, ev.isSlogInfo "Redis 连接成功" = false) := by
  have hN := redis.NewClient_opts conf.Redis.Addr conf.Redis.Password conf.Redis.DB
  rcases InitRedis_cases env conf with ⟨e, hp, h⟩ | ⟨r, hp, h⟩
  · rw [h]
    simp [hp, Run.value, Event.isSlogInfo]
  · rw [h]
    refine ⟨by simp [hp], ?_, by simp [hp]⟩
    intro c hc
    cases hc
    exact ⟨hN.1, hN.2.1, hN.2.2.1, hN.2.2.2, none, rfl⟩

/-- Witness for C6, amended: the sample run returns a client bound to the configured
address `127.0.0.1:6379`, and against a Redis that refuses the connection it exits with
status 1 and logs no success line. -/
theorem InitRedis_liveness_witness :
    (∀ c, (InitRedis sampleEnv sampleConf).outcome = .returned c →
      c.opts.Addr = "127.0.0.1:6379") ∧
    (InitRedis failingEnv sampleConf).outcome = .exited 1 ∧
    ∀ ev ∈ (InitRedis failingEnv sampleConf).trace, ev.isSlogInfo "Redis 连接成功" = false :=
  have h := (InitRedis_liveness failingEnv sampleConf).2.2 "connection refused" rfl
  ⟨fun c hc => ((InitRedis_liveness sampleEnv sampleConf).2.1 c hc).1 (by decide),
    h.1, h.2.2.2⟩

/-- C9: every `gorm.Open` call of `InitDatabase` receives the configuration `config`, there
is such a call whenever the backend is supported, and the verbosity in `config` is Silent
when `Server.DbLogMode` is exactly `"silent"`, Info when `"info"`, Warn when `"warn"`, and
Error for `"error"` and for every other string; the four verbosities are distinct. -/
theorem InitDatabase_log_mode (env : Env) (conf : Config) :
    (∀ d cfg err, Event.GormOpen d cfg err ∈ (InitDatabase env conf).trace →
      cfg = InitDatabase.config conf) ∧
    ((conf.DbType = "mysql" ∨ conf.DbType = "sqlite") →
      ∃ d err, Event.GormOpen d (InitDatabase.config conf) err ∈ (InitDatabase env conf).trace) ∧
    (conf.Server.DbLogMode = "silent" → (InitDatabase.config conf).Logger = logger.Silent) ∧
    (conf.Server.DbLogMode = "info" → (InitDatabase.config conf).Logger = logger.Info) ∧
    (conf.Server.DbLogMode = "warn" → (InitDatabase.config conf).Logger = logger.Warn) ∧
    (conf.Server.DbLogMode = "error" → (InitDatabase.config conf).Logger = logger.Error) ∧
    (conf.Server.DbLogMode ≠ "silent" → conf.Server.DbLogMode ≠ "info" →
      conf.Server.DbLogMode ≠ "warn" → (InitDatabase.config conf).Logger = logger.Error) ∧
    logger.Silent < logger.Error ∧ logger.Error < logger.Warn ∧ logger.Warn < logger.Info := by
  have hsup : ∀ d : Dialector,
      ((conf.DbType = "mysql" ∧ d = .mysql conf.DbDSN) ∨
        (conf.DbType = "sqlite" ∧ d = .sqlite conf.DbDSN)) →
      (∀ d2 cfg err, Event.GormOpen d2 cfg err ∈ (InitDatabase env conf).trace →
        cfg = InitDatabase.config conf) ∧
      ∃ err, Event.GormOpen d (InitDatabase.config conf) err ∈ (InitDatabase env conf).trace := by
    intro d hd
    rcases InitDatabase_supported env conf d hd with
      ⟨e, _, h⟩ | ⟨db, _, _, h⟩ | ⟨db, e, _, _, _, h⟩ | ⟨db, _, _, _, h⟩
    · rw [h]
      exact ⟨by simp; intros; assumption, some e, by simp⟩
    · rw [h]
      exact ⟨by simp; intros; assumption, none, by simp⟩
    · rw [h]
      exact ⟨by simp; intros; assumption, none, by simp⟩
    · rw [h]
      exact ⟨by simp; intros; assumption, none, by simp⟩
  refine ⟨?_, ?_, ?_, ?_, ?_, ?_, ?_, by decide, by decide, by decide⟩
  · by_cases h1 : conf.DbType = "mysql"
    · exact (hsup _ (Or.inl ⟨h1, rfl⟩)).1
    · by_cases h2 : conf.DbType = "sqlite"
      · exact (hsup _ (Or.inr ⟨h2, rfl⟩)).1
      · rw [InitDatabase_unsupported env conf h1 h2]
        simp
  · rintro (h1 | h2)
    · exact ⟨_, (hsup _ (Or.inl ⟨h1, rfl⟩)).2⟩
    · exact ⟨_, (hsup _ (Or.inr ⟨h2, rfl⟩)).2⟩
  · intro h
    simp [InitDatabase.config, InitDatabase.verbosity_table, h]
  · intro h
    simp [InitDatabase.config, InitDatabase.verbosity_table, h]
  · intro h
    simp [InitDatabase.config, InitDatabase.verbosity_table, h]
  · intro h
    simp [InitDatabase.config, InitDatabase.verbosity_table, h]
  · intro h1 h2 h3
    simp [InitDatabase.config, InitDatabase.verbosity_table, h1, h2, h3]

/-- Witness for C9: the empty `Server.DbLogMode` of the sample configuration makes the
sqlite driver run with verbosity Error. -/
theorem InitDatabase_log_mode_witness :
    (∃ d err, Event.GormOpen d (InitDatabase.config sampleConf) err
      ∈ (InitDatabase sampleEnv sampleConf).trace) ∧
    (InitDatabase.config sampleConf).Logger = logger.Error := by
  obtain ⟨_, h2, _, _, _, _, h7, _⟩ := InitDatabase_log_mode sampleEnv sampleConf
  exact ⟨h2 (Or.inr rfl), h7 (by decide) (by decide) (by decide)⟩

/-- C5: `InitDatabase` calls `model.MakeMigrate` (at most once) if and only if the backend
is supported, `gorm.Open` returned no error and `Server.DbAutoMigrate` is true; the call
reports what the migration runner answers, and whenever it reports failure the run exits
with status 1 through `log.Fatal`, returns no handle, and the migration-success line is
not logged. -/
theorem InitDatabase_migration (env : Env) (conf : Config) :
    ((∃ e ∈ (InitDatabase env conf).trace, e.isMakeMigrate = true) ↔
      (conf.Server.DbAutoMigrate = true ∧
        ((conf.DbType = "mysql" ∧
            ∃ db, env.GormOpen (.mysql conf.DbDSN) (InitDatabase.config conf) = .ok db) ∨
         (conf.DbType = "sqlite" ∧
            ∃ db, env.GormOpen (.sqlite conf.DbDSN) (InitDatabase.config conf) = .ok db)))) ∧
    ((InitDatabase env conf).trace.filter Event.isMakeMigrate).length ≤ 1 ∧
    (∀ db err, Event.MakeMigrate db err ∈ (InitDatabase env conf).trace →
      err = env.MakeMigrate db) ∧
    (∀ db err, Event.MakeMigrate db (some err) ∈ (InitDatabase env conf).trace →
      (InitDatabase env conf).outcome = .exited 1 ∧
      (InitDatabase env conf).value = none ∧
      (InitDatabase env conf).trace.getLast? = some (.LogFatal ("数据库迁移失败" ++ err)) ∧
      ∀ e ∈ (InitDatabase env conf).trace, e.isSlogInfo "数据库自动迁移成功" = false) := by
  have hsup : ∀ d : Dialector,
      ((conf.DbType = "mysql" ∧ d = .mysql conf.DbDSN) ∨
        (conf.DbType = "sqlite" ∧ d = .sqlite conf.DbDSN)) →
      ((∃ e ∈ (InitDatabase env conf).trace, e.isMakeMigrate = true) ↔
        (conf.Server.DbAutoMigrate = true ∧
          ∃ db, env.GormOpen d (InitDatabase.config conf) = .ok db)) ∧
      ((InitDatabase env conf).trace.filter Event.isMakeMigrate).length ≤ 1 ∧
      (∀ db err, Event.MakeMigrate db err ∈ (InitDatabase env conf).trace →
        err = env.MakeMigrate db) ∧
      (∀ db err, Event.MakeMigrate db (some err) ∈ (InitDatabase env conf).trace →
        (InitDatabase env conf).outcome = .exited 1 ∧
        (InitDatabase env conf).value = none ∧
        (InitDatabase env conf).trace.getLast? = some (.LogFatal ("数据库迁移失败" ++ err)) ∧
        ∀ e ∈ (InitDatabase env conf).trace, e.isSlogInfo "数据库自动迁移成功" = false) := by
    intro d hd
    rcases InitDatabase_supported env conf d hd with
      ⟨e, ho, h⟩ | ⟨db, ho, ha, h⟩ | ⟨db, e, ho, ha, hmg, h⟩ | ⟨db, ho, ha, hmg, h⟩
    · rw [h]
      simp [ho, Event.isMakeMigrate]
    · rw [h]
      simp [ho, ha, Event.isMakeMigrate]
    · rw [h]
      simp [ho, ha, hmg, Event.isMakeMigrate, Event.isSlogInfo, Run.value]
    · rw [h]
      simp [ho, ha, hmg, Event.isMakeMigrate]
  by_cases h1 : conf.DbType = "mysql"
  · have hs := hsup (.mysql conf.DbDSN) (Or.inl ⟨h1, rfl⟩)
    refine ⟨?_, hs.2⟩
    rw [hs.1]
    simp [h1]
  · by_cases h2 : conf.DbType = "sqlite"
    · have hs := hsup (.sqlite conf.DbDSN) (Or.inr ⟨h2, rfl⟩)
      refine ⟨?_, hs.2⟩
      rw [hs.1]
      simp [h2]
    · rw [InitDatabase_unsupported env conf h1 h2]
      simp [h1, h2, Event.isMakeMigrate]

/-- Witness for C5: with sqlite opened, auto-migration on and a migration runner that
fails, the sample run exits with status 1 and logs no migration-success line. -/
theorem InitDatabase_migration_witness :
    (InitDatabase { sampleEnv with MakeMigrate := fun _ => some "migration failed" }
      sampleConf).outcome = .exited 1 ∧
    ∀ e ∈ (InitDatabase { sampleEnv with MakeMigrate := fun _ => some "migration failed" }
      sampleConf).trace, e.isSlogInfo "数据库自动迁移成功" = false :=
  have h := (InitDatabase_migration
    { sampleEnv with MakeMigrate := fun _ => some "migration failed" } sampleConf).2.2.2
    ⟨1⟩ "migration failed"
    (List.mem_cons_of_mem _ (List.mem_cons_of_mem _ (List.mem_cons_self _ _)))
  ⟨h.1, h.2.2.2⟩

/-- C10: the rewriter `ReplaceAttr` maps an attribute whose key is `slog.TimeKey` and whose
value is a timestamp to the same key with the string obtained by formatting the timestamp
with the layout `time.DateTime` (year, month, day, hour, minute, second, separated by
`-`, a blank and `:`; 19 characters for years 0..9999), and returns every attribute with
another key or a non-timestamp value unchanged; the logger `InitLogger` returns carries
this rewriter whatever the handler kind, so the timestamp field of a record stamped `t` is
that string. -/
theorem InitLogger_ReplaceAttr (env : Env) (conf : Config) (groups : List String) (a : Attr) :
    (∀ t, a.Key = slog.TimeKey → a.Value = .KindTime t →
      InitLogger.ReplaceAttr groups a = ⟨a.Key, .KindString (t.Format time.DateTime)⟩) ∧
    (a.Key ≠ slog.TimeKey → InitLogger.ReplaceAttr groups a = a) ∧
    ((∀ t, a.Value ≠ .KindTime t) → InitLogger.ReplaceAttr groups a = a) ∧
    (∃ l : Logger, (InitLogger env conf).outcome = .returned l ∧
      l.handler.opts.ReplaceAttr = InitLogger.ReplaceAttr ∧
      ∀ t, l.handler.timeField t = ⟨slog.TimeKey, .KindString (t.Format time.DateTime)⟩) ∧
    (∀ t : Time, t.Format time.DateTime =
      String.mk (appendInt t.year 4 ++ '-' :: (appendInt t.month 2 ++ '-' ::
        (appendInt t.day 2 ++ ' ' :: (appendInt t.hour 2 ++ ':' ::
          (appendInt t.minute 2 ++ ':' :: appendInt t.second 2)))))) ∧
    (∀ t : Time, 0 ≤ t.year → t.year ≤ 9999 →
      (t.Format time.DateTime).length = 19 ∧
      (appendInt t.year 4).length = 4 ∧ (appendInt t.month 2).length = 2 ∧
      (appendInt t.day 2).length = 2 ∧ (appendInt t.hour 2).length = 2 ∧
      (appendInt t.minute 2).length = 2 ∧ (appendInt t.second 2).length = 2 ∧
      ∀ c ∈ appendInt t.year 4 ++ appendInt t.month 2 ++ appendInt t.day 2 ++
          appendInt t.hour 2 ++ appendInt t.minute 2 ++ appendInt t.second 2,
        c.isDigit = true) := by
  refine ⟨?_, ?_, ?_, ?_, Time.Format_DateTime, ?_⟩
  · intro t hk hv
    simp [InitLogger.ReplaceAttr, hk, hv, Value.asTime]
  · intro hk
    simp [InitLogger.ReplaceAttr, hk]
  · intro hv
    have hnone : a.Value.asTime = none := by
      cases hval : a.Value with
      | KindTime t => exact absurd hval (hv t)
      | _ => rfl
    simp [InitLogger.ReplaceAttr, hnone]
  · obtain ⟨tr, w, h⟩ := InitLogger.output_returns env conf
    refine ⟨_, by rw [InitLogger_eq env conf tr w h], ?_, ?_⟩
    · simp [InitLogger.handler_opts, InitLogger.option]
    · intro t
      simp [Handler.timeField, InitLogger.handler_opts, InitLogger.option,
        InitLogger.ReplaceAttr, Value.asTime]
  · intro t h0 h1
    have hY : (appendInt t.year 4).length = 4 :=
      appendInt_length _ 4 h0 (by decide) (by omega)
    have hM : (appendInt t.month 2).length = 2 :=
      appendInt_length _ 2 (Int.natCast_nonneg _) (by decide) t.month_fits
    have hD : (appendInt t.day 2).length = 2 :=
      appendInt_length _ 2 (Int.natCast_nonneg _) (by decide) t.day_fits
    have hh : (appendInt t.hour 2).length = 2 :=
      appendInt_length _ 2 (Int.natCast_nonneg _) (by decide) t.hour_fits
    have hm : (appendInt t.minute 2).length = 2 :=
      appendInt_length _ 2 (Int.natCast_nonneg _) (by decide) t.minute_fits
    have hs : (appendInt t.second 2).length = 2 :=
      appendInt_length _ 2 (Int.natCast_nonneg _) (by decide) t.second_fits
    refine ⟨?_, hY, hM, hD, hh, hm, hs, ?_⟩
    · rw [Time.Format_DateTime]
      simp only [String.length_mk, List.length_append, List.length_cons, hY, hM, hD, hh, hm, hs]
    · intro c hc
      simp only [List.mem_append] at hc
      rcases hc with ((((hc | hc) | hc) | hc) | hc) | hc
      · exact appendInt_isDigit _ _ h0 c hc
      · exact appendInt_isDigit _ _ (Int.natCast_nonneg _) c hc
      · exact appendInt_isDigit _ _ (Int.natCast_nonneg _) c hc
      · exact appendInt_isDigit _ _ (Int.natCast_nonneg _) c hc
      · exact appendInt_isDigit _ _ (Int.natCast_nonneg _) c hc
      · exact appendInt_isDigit _ _ (Int.natCast_nonneg _) c hc

/-- Witness for C10: the timestamp 7 March 2024, 09:05:00 under the time key is rewritten
to the string `2024-03-07 09:05:00`, which is 19 characters long. -/
theorem InitLogger_ReplaceAttr_witness :
    InitLogger.ReplaceAttr [] ⟨slog.TimeKey, .KindTime sampleTime⟩
      = ⟨slog.TimeKey, .KindString "2024-03-07 09:05:00"⟩ ∧
    (sampleTime.Format time.DateTime).length = 19 :=
  have h := InitLogger_ReplaceAttr sampleEnv sampleConf [] ⟨slog.TimeKey, .KindTime sampleTime⟩
  ⟨h.1 sampleTime rfl rfl, (h.2.2.2.2.2 sampleTime (by decide) (by decide)).1⟩

end GinBlog
